import Mathlib

/-
  Verification development for the cross-exchange delta-neutral rotation
  engine (lighter_aster_hedge.py and companions).

  Numeric values (Python floats) are modelled as exact rationals (ℚ);
  optional values as Option; raised exceptions as Except errors.  Each
  definition is a direct translation of the named source function.
-/

namespace Hedge

/-- Python truthiness of an optional price: None and 0 are falsy
(source: the bare `if lighter_bid and lighter_ask` tests). -/
def truthy : Option ℚ → Bool
  | none => false
  | some x => x != 0

/-- Value of an optional price, defaulting to 0 (only read under a
truthiness guard, so the default is never observed). -/
def pval : Option ℚ → ℚ
  | none => 0
  | some x => x

/-- Translation of get_avg_mid (lighter_aster_hedge.py lines 320-345):
average mid price between both exchanges, falling back gracefully;
raises RuntimeError when no usable combination of prices exists. -/
def get_avg_mid (lighterBid lighterAsk asterBid asterAsk : Option ℚ) :
    Except String ℚ :=
  let mids : List ℚ :=
    (if truthy lighterBid && truthy lighterAsk then
      [(pval lighterBid + pval lighterAsk) / 2] else [])
    ++ (if truthy asterBid && truthy asterAsk then
      [(pval asterBid + pval asterAsk) / 2] else [])
  if mids ≠ [] then
    Except.ok (mids.sum / (mids.length : ℚ))
  else if truthy lighterBid && truthy lighterAsk then
    Except.ok ((pval lighterBid + pval lighterAsk) / 2)
  else if truthy asterBid && truthy asterAsk then
    Except.ok ((pval asterBid + pval asterAsk) / 2)
  else if truthy lighterBid && truthy asterAsk then
    Except.ok ((pval lighterBid + pval asterAsk) / 2)
  else if truthy asterBid && truthy lighterAsk then
    Except.ok ((pval asterBid + pval lighterAsk) / 2)
  else
    Except.error "No usable prices from either venue."

/-- Restatement of claim C10's case analysis in its own words: venues
with both sides contribute their mid and the result is the mean over
those venues; otherwise a cross pair is averaged; otherwise error. -/
def specC10AvgMid (lighterBid lighterAsk asterBid asterAsk : Option ℚ) :
    Except String ℚ :=
  let lBoth := truthy lighterBid && truthy lighterAsk
  let aBoth := truthy asterBid && truthy asterAsk
  if lBoth && aBoth then
    Except.ok (((pval lighterBid + pval lighterAsk) / 2
      + (pval asterBid + pval asterAsk) / 2) / 2)
  else if lBoth then
    Except.ok ((pval lighterBid + pval lighterAsk) / 2)
  else if aBoth then
    Except.ok ((pval asterBid + pval asterAsk) / 2)
  else if truthy lighterBid && truthy asterAsk then
    Except.ok ((pval lighterBid + pval asterAsk) / 2)
  else if truthy asterBid && truthy lighterAsk then
    Except.ok ((pval asterBid + pval lighterAsk) / 2)
  else
    Except.error "No usable prices from either venue."

/-- Translation of _calculate_apr (lines 348-350): convert a per-period
funding rate (decimal form) into an annualized percentage. -/
def calculate_apr (rate : ℚ) (periodsPerDay : ℕ) : ℚ :=
  rate * periodsPerDay * 365 * 100

/-- The directional fields of the per-symbol opportunity dict built by
fetch_symbol_funding. -/
structure Opportunity where
  long_exch : String
  short_exch : String
  net_apr : ℚ
deriving DecidableEq

/-- Direction selection of fetch_symbol_funding (lines 745-760): Aster
funds 6 times per day, Lighter 3 times; the direction with the greater
APR difference is chosen, ties going to long-Aster/short-Lighter. -/
def funding_direction (aster_rate lighter_rate : ℚ) : Opportunity :=
  let aster_apr := calculate_apr aster_rate 6
  let lighter_apr := calculate_apr lighter_rate 3
  let long_aster_short_lighter := lighter_apr - aster_apr
  let long_lighter_short_aster := aster_apr - lighter_apr
  if long_aster_short_lighter ≥ long_lighter_short_aster then
    ⟨"Aster", "Lighter", long_aster_short_lighter⟩
  else
    ⟨"Lighter", "Aster", long_lighter_short_aster⟩

/-- Result construction of fetch_symbol_spread (lines 607-621) given the
two fetched mids: (spread_pct?, aster_mid?, lighter_mid?); the spread is
None when either mid is missing. -/
def fetch_symbol_spread (aster_mid lighter_mid : Option ℚ) :
    Option ℚ × Option ℚ × Option ℚ :=
  match aster_mid, lighter_mid with
  | some a, some l => (some (|a - l| / ((a + l) / 2) * 100), some a, some l)
  | a, l => (none, a, l)

/-- The availability-relevant fields of the per-symbol dict returned by
fetch_symbol_funding. -/
structure FundingScan where
  available : Bool
  missing_on : List String
  excluded_reason : Option String
  long_exch : Option String
  short_exch : Option String
  net_apr : Option ℚ
  spread_pct : Option ℚ
deriving DecidableEq

/-- The available branch of fetch_symbol_funding (lines 745-777). -/
def funding_available (aster_rate lighter_rate : ℚ) (spread_pct : Option ℚ) :
    FundingScan :=
  let o := funding_direction aster_rate lighter_rate
  { available := true, missing_on := [], excluded_reason := none,
    long_exch := some o.long_exch, short_exch := some o.short_exch,
    net_apr := some o.net_apr, spread_pct := spread_pct }

/-- Translation of the result construction of fetch_symbol_funding
(lines 704-777): unavailable with a missing list when either funding
rate is missing; rejected with reason spread when the spread is known
and exceeds the threshold; otherwise available with the best direction.
A missing mid leaves spread_pct as None, which skips the spread check. -/
def fetch_symbol_funding (aster_rate lighter_rate aster_mid lighter_mid : Option ℚ)
    (max_spread_pct : ℚ) : FundingScan :=
  let spread_pct := (fetch_symbol_spread aster_mid lighter_mid).1
  if aster_rate.isNone || lighter_rate.isNone then
    { available := false
      missing_on := (if aster_rate.isNone then ["Aster"] else [])
        ++ (if lighter_rate.isNone then ["Lighter"] else [])
      excluded_reason := none
      long_exch := none, short_exch := none, net_apr := none
      spread_pct := spread_pct }
  else
    match spread_pct with
    | some sp =>
      if sp > max_spread_pct then
        { available := false, missing_on := ["Spread too wide"],
          excluded_reason := some "spread", long_exch := none,
          short_exch := none, net_apr := none, spread_pct := spread_pct }
      else funding_available (pval aster_rate) (pval lighter_rate) spread_pct
    | none => funding_available (pval aster_rate) (pval lighter_rate) spread_pct

end Hedge

/-- C10: get_avg_mid averages the per-venue mids of exactly those venues
with both sides present; with no complete venue it averages a cross pair
(lighter_bid with aster_ask, else aster_bid with lighter_ask); with only
one one-sided price anywhere it raises; zero prices count as absent.
This is exactly the case analysis of specC10AvgMid. -/
theorem c10_get_avg_mid_matches_spec
    (lighterBid lighterAsk asterBid asterAsk : Option ℚ) :
    Hedge.get_avg_mid lighterBid lighterAsk asterBid asterAsk
      = Hedge.specC10AvgMid lighterBid lighterAsk asterBid asterAsk := by
  unfold Hedge.get_avg_mid Hedge.specC10AvgMid
  cases h1 : Hedge.truthy lighterBid <;>
    cases h2 : Hedge.truthy lighterAsk <;>
      cases h3 : Hedge.truthy asterBid <;>
        cases h4 : Hedge.truthy asterAsk <;>
          simp [h1, h2, h3, h4]

/-- C1: for a scanned symbol with both funding rates and both mids
retrieved and the spread within the threshold, the scan is available and
carries the opportunity of funding_direction, whose net_apr equals
|apr_A − apr_L| with apr_A = aster_rate·6·365·100 and
apr_L = lighter_rate·3·365·100, and whose (long, short) venues are the
direction with the greater APR difference. -/
theorem c1_net_apr_and_direction
    (aster_rate lighter_rate aster_mid lighter_mid max_spread_pct : ℚ)
    (hspread : |aster_mid - lighter_mid| / ((aster_mid + lighter_mid) / 2) * 100
      ≤ max_spread_pct) :
    Hedge.fetch_symbol_funding (some aster_rate) (some lighter_rate)
        (some aster_mid) (some lighter_mid) max_spread_pct
      = Hedge.funding_available aster_rate lighter_rate
          (some (|aster_mid - lighter_mid| / ((aster_mid + lighter_mid) / 2) * 100))
    ∧ (Hedge.funding_direction aster_rate lighter_rate).net_apr
      = |Hedge.calculate_apr aster_rate 6 - Hedge.calculate_apr lighter_rate 3|
    ∧ (Hedge.funding_direction aster_rate lighter_rate).net_apr
      = max (Hedge.calculate_apr lighter_rate 3 - Hedge.calculate_apr aster_rate 6)
          (Hedge.calculate_apr aster_rate 6 - Hedge.calculate_apr lighter_rate 3)
    ∧ ((Hedge.funding_direction aster_rate lighter_rate).long_exch = "Aster"
        ∧ (Hedge.funding_direction aster_rate lighter_rate).short_exch = "Lighter"
        ∧ Hedge.calculate_apr aster_rate 6 - Hedge.calculate_apr lighter_rate 3
          ≤ Hedge.calculate_apr lighter_rate 3 - Hedge.calculate_apr aster_rate 6
      ∨ (Hedge.funding_direction aster_rate lighter_rate).long_exch = "Lighter"
        ∧ (Hedge.funding_direction aster_rate lighter_rate).short_exch = "Aster"
        ∧ Hedge.calculate_apr lighter_rate 3 - Hedge.calculate_apr aster_rate 6
          < Hedge.calculate_apr aster_rate 6 - Hedge.calculate_apr lighter_rate 3) := by
  refine ⟨?_, ?_, ?_, ?_⟩
  · simp only [Hedge.fetch_symbol_funding, Hedge.fetch_symbol_spread, Hedge.pval,
      Option.isNone_some, Bool.or_self, Bool.false_eq_true, if_false]
    rw [if_neg (not_lt.mpr hspread)]
  · unfold Hedge.funding_direction
    rcases le_or_lt (Hedge.calculate_apr aster_rate 6) (Hedge.calculate_apr lighter_rate 3)
      with h | h
    · rw [if_pos (by linarith)]
      simp only
      rw [abs_of_nonpos (by linarith)]
      ring
    · rw [if_neg (by simp only [ge_iff_le, not_le]; linarith)]
      simp only
      rw [abs_of_pos (by linarith)]
  · unfold Hedge.funding_direction
    rcases le_or_lt (Hedge.calculate_apr aster_rate 6) (Hedge.calculate_apr lighter_rate 3)
      with h | h
    · rw [if_pos (by linarith)]
      simp only
      rw [max_eq_left (by linarith)]
    · rw [if_neg (by simp only [ge_iff_le, not_le]; linarith)]
      simp only
      rw [max_eq_right (by linarith)]
  · unfold Hedge.funding_direction
    rcases le_or_lt (Hedge.calculate_apr aster_rate 6) (Hedge.calculate_apr lighter_rate 3)
      with h | h
    · left
      rw [if_pos (by linarith)]
      exact ⟨rfl, rfl, by linarith⟩
    · right
      rw [if_neg (by simp only [ge_iff_le, not_le]; linarith)]
      exact ⟨rfl, rfl, by linarith⟩

/-- Witness for C1 at aster_rate = 1/10000, lighter_rate = 2/10000,
equal mids, threshold 0.15. -/
theorem c1_net_apr_and_direction_witness :
    (|(100 : ℚ) - 100| / ((100 + 100) / 2) * 100 ≤ 15 / 100)
    ∧ (Hedge.fetch_symbol_funding (some (1 / 10000)) (some (2 / 10000))
          (some 100) (some 100) (15 / 100)
        = Hedge.funding_available (1 / 10000) (2 / 10000)
            (some (|(100 : ℚ) - 100| / ((100 + 100) / 2) * 100))
      ∧ (Hedge.funding_direction (1 / 10000) (2 / 10000)).net_apr
        = |Hedge.calculate_apr (1 / 10000) 6 - Hedge.calculate_apr (2 / 10000) 3|
      ∧ (Hedge.funding_direction (1 / 10000) (2 / 10000)).net_apr
        = max (Hedge.calculate_apr (2 / 10000) 3 - Hedge.calculate_apr (1 / 10000) 6)
            (Hedge.calculate_apr (1 / 10000) 6 - Hedge.calculate_apr (2 / 10000) 3)
      ∧ ((Hedge.funding_direction (1 / 10000) (2 / 10000)).long_exch = "Aster"
          ∧ (Hedge.funding_direction (1 / 10000) (2 / 10000)).short_exch = "Lighter"
          ∧ Hedge.calculate_apr (1 / 10000) 6 - Hedge.calculate_apr (2 / 10000) 3
            ≤ Hedge.calculate_apr (2 / 10000) 3 - Hedge.calculate_apr (1 / 10000) 6
        ∨ (Hedge.funding_direction (1 / 10000) (2 / 10000)).long_exch = "Lighter"
          ∧ (Hedge.funding_direction (1 / 10000) (2 / 10000)).short_exch = "Aster"
          ∧ Hedge.calculate_apr (2 / 10000) 3 - Hedge.calculate_apr (1 / 10000) 6
            < Hedge.calculate_apr (1 / 10000) 6 - Hedge.calculate_apr (2 / 10000) 3)) :=
  ⟨by norm_num,
    c1_net_apr_and_direction (1 / 10000) (2 / 10000) 100 100 (15 / 100) (by norm_num)⟩

/-- C9 counterexample: with both funding rates present but the Aster mid
missing, fetch_symbol_funding still returns available = true with an
empty missing list — the claim says a missing mid makes the symbol
unavailable with a missing-data reason. -/
theorem c9_counterexample :
    (Hedge.fetch_symbol_funding (some (1 / 10000)) (some (2 / 10000))
        none (some 100) (15 / 100)).available = true
    ∧ (Hedge.fetch_symbol_funding (some (1 / 10000)) (some (2 / 10000))
        none (some 100) (15 / 100)).missing_on = [] := by
  constructor <;> rfl

/-- C9 amended: the scan is marked unavailable with a missing-data
reason exactly when a funding rate is missing; it is available iff both
funding rates are present and the spread, when computable from two mids,
is within the threshold — a missing mid alone never excludes a symbol. -/
theorem c9_availability_characterization
    (aster_rate lighter_rate aster_mid lighter_mid : Option ℚ) (max_spread_pct : ℚ) :
    ((Hedge.fetch_symbol_funding aster_rate lighter_rate aster_mid lighter_mid
          max_spread_pct).available = false
      ∧ (Hedge.fetch_symbol_funding aster_rate lighter_rate aster_mid lighter_mid
          max_spread_pct).excluded_reason = none
      ↔ aster_rate = none ∨ lighter_rate = none)
    ∧ ((Hedge.fetch_symbol_funding aster_rate lighter_rate aster_mid lighter_mid
          max_spread_pct).available = true
      ↔ aster_rate ≠ none ∧ lighter_rate ≠ none
        ∧ ∀ sp, (Hedge.fetch_symbol_spread aster_mid lighter_mid).1 = some sp
          → sp ≤ max_spread_pct) := by
  rcases aster_rate with _ | ar <;> rcases lighter_rate with _ | lr <;>
    rcases aster_mid with _ | am <;> rcases lighter_mid with _ | lm <;>
      simp only [Hedge.fetch_symbol_funding, Hedge.fetch_symbol_spread,
        Hedge.funding_available, Option.isNone_some, Option.isNone_none,
        Bool.true_or, Bool.or_true, Bool.or_self, Bool.or_false, Bool.false_or,
        if_true, if_false] <;>
      try simp
  by_cases hsp : max_spread_pct < |am - lm| / ((am + lm) / 2) * 100
  · simp [hsp, not_le.mpr hsp]
  · simp [hsp, not_lt.mp hsp]

namespace Hedge

/-- Translation of _floor_to_tick (lines 304-310): round value down to
the nearest tick; a missing or non-positive tick leaves the value
unchanged. -/
def floor_to_tick (value tick : ℚ) : ℚ :=
  if tick ≤ 0 then value else ⌊value / tick⌋ * tick

/-- Rounding mode ROUND_HALF_UP of Python Decimal: nearest integer,
ties away from zero. -/
def round_half_up (q : ℚ) : ℤ :=
  if 0 ≤ q then ⌊q + 1 / 2⌋ else -⌊-q + 1 / 2⌋

/-- Translation of _round_to_tick (lines 286-292). -/
def round_to_tick (value tick : ℚ) : ℚ :=
  if tick ≤ 0 then value else (round_half_up (value / tick) : ℚ) * tick

/-- Failures of the sizing prefix of open_delta_neutral_position. -/
inductive OpenError
  | invalidMid
  | sizeRoundsToZero
  | sizeTooSmall
deriving DecidableEq

/-- Sizing prefix of open_delta_neutral_position (lines 843-878):
size from notional over average mid, floored to the coarser amount tick,
re-floored if per-venue rounding would desynchronize the legs, then
rejected when non-positive or below ten amount ticks on either venue.
All of this happens before any leg order is submitted, so an error here
means no order went out. -/
def open_compute_size (l_amount_tick aster_step_size avg_mid notional_quote : ℚ) :
    Except OpenError ℚ :=
  if avg_mid ≤ 0 then Except.error OpenError.invalidMid
  else
    let size_base0 := notional_quote / avg_mid
    let coarser_tick := max l_amount_tick aster_step_size
    let size_base1 := floor_to_tick size_base0 coarser_tick
    let lighter_rounded := round_to_tick size_base1 l_amount_tick
    let aster_rounded := round_to_tick size_base1 aster_step_size
    let size_base :=
      if min l_amount_tick aster_step_size < |lighter_rounded - aster_rounded|
      then floor_to_tick size_base1 coarser_tick else size_base1
    if size_base ≤ 0 then Except.error OpenError.sizeRoundsToZero
    else if size_base < l_amount_tick * 10 ∨ size_base < aster_step_size * 10 then
      Except.error OpenError.sizeTooSmall
    else Except.ok size_base

theorem floor_to_tick_multiple (v t : ℚ) (ht : 0 < t) :
    ∃ k : ℤ, floor_to_tick v t = k * t :=
  ⟨⌊v / t⌋, by unfold floor_to_tick; rw [if_neg (not_le.mpr ht)]⟩

theorem floor_to_tick_idem (v t : ℚ) (ht : 0 < t) :
    floor_to_tick (floor_to_tick v t) t = floor_to_tick v t := by
  unfold floor_to_tick
  rw [if_neg (not_le.mpr ht), if_neg (not_le.mpr ht)]
  have h : (⌊v / t⌋ : ℚ) * t / t = (⌊v / t⌋ : ℚ) := by
    field_simp
  rw [h, Int.floor_intCast]

theorem open_compute_size_eq (l_tick a_tick mid nq : ℚ)
    (hl : 0 < l_tick) (ha : 0 < a_tick) (hm : 0 < mid) :
    open_compute_size l_tick a_tick mid nq =
      (if floor_to_tick (nq / mid) (max l_tick a_tick) ≤ 0 then
        Except.error OpenError.sizeRoundsToZero
      else if floor_to_tick (nq / mid) (max l_tick a_tick) < l_tick * 10
          ∨ floor_to_tick (nq / mid) (max l_tick a_tick) < a_tick * 10 then
        Except.error OpenError.sizeTooSmall
      else Except.ok (floor_to_tick (nq / mid) (max l_tick a_tick))) := by
  unfold open_compute_size
  rw [if_neg (not_le.mpr hm)]
  simp only [floor_to_tick_idem _ _ (lt_max_of_lt_left hl), ite_self]

end Hedge

/-- C2: after flooring notional/avg_mid to the coarser amount tick, the
resulting size is an exact integer multiple of max(tick_lighter,
tick_aster); the sizing fails if and only if that size is non-positive
or below 10 ticks on either venue, which is equivalent to being below
10·max(tick_lighter, tick_aster); on success the computed size is
returned unchanged and no error (hence no unsubmitted-order state)
occurs. -/
theorem c2_size_floor_and_minimum (l_tick a_tick mid nq : ℚ)
    (hl : 0 < l_tick) (ha : 0 < a_tick) (hm : 0 < mid) :
    (∃ k : ℤ, Hedge.floor_to_tick (nq / mid) (max l_tick a_tick)
      = k * max l_tick a_tick)
    ∧ ((∃ e, Hedge.open_compute_size l_tick a_tick mid nq = Except.error e)
      ↔ Hedge.floor_to_tick (nq / mid) (max l_tick a_tick)
        < 10 * max l_tick a_tick)
    ∧ (Hedge.floor_to_tick (nq / mid) (max l_tick a_tick) ≤ 0
        ∨ Hedge.floor_to_tick (nq / mid) (max l_tick a_tick) < l_tick * 10
        ∨ Hedge.floor_to_tick (nq / mid) (max l_tick a_tick) < a_tick * 10
      ↔ Hedge.floor_to_tick (nq / mid) (max l_tick a_tick)
        < 10 * max l_tick a_tick)
    ∧ (∀ v, Hedge.open_compute_size l_tick a_tick mid nq = Except.ok v
      → v = Hedge.floor_to_tick (nq / mid) (max l_tick a_tick)
        ∧ 10 * max l_tick a_tick ≤ v) := by
  have hct : 0 < max l_tick a_tick := lt_max_of_lt_left hl
  have hsplit : ∀ s : ℚ, s < 10 * max l_tick a_tick ↔ s < l_tick * 10 ∨ s < a_tick * 10 := by
    intro s
    rcases le_total l_tick a_tick with h | h
    · rw [max_eq_right h]
      constructor
      · intro h2; right; linarith
      · rintro (h2 | h2) <;> linarith
    · rw [max_eq_left h]
      constructor
      · intro h2; left; linarith
      · rintro (h2 | h2) <;> linarith
  refine ⟨Hedge.floor_to_tick_multiple _ _ hct, ?_, ?_, ?_⟩
  · rw [Hedge.open_compute_size_eq l_tick a_tick mid nq hl ha hm]
    split_ifs with h1 h2
    · constructor
      · intro _; linarith
      · intro _; exact ⟨_, rfl⟩
    · constructor
      · intro _; exact (hsplit _).mpr h2
      · intro _; exact ⟨_, rfl⟩
    · constructor
      · rintro ⟨e, he⟩; cases he
      · intro h3; exact absurd ((hsplit _).mp h3) h2
  · constructor
    · rintro (h | h | h)
      · linarith
      · exact (hsplit _).mpr (Or.inl h)
      · exact (hsplit _).mpr (Or.inr h)
    · intro h; right; exact (hsplit _).mp h
  · intro v hv
    rw [Hedge.open_compute_size_eq l_tick a_tick mid nq hl ha hm] at hv
    split_ifs at hv with h1 h2
    cases hv
    exact ⟨rfl, not_lt.mp fun hcon => h2 ((hsplit _).mp hcon)⟩

/-- Witness for C2 with ticks 0.001 and 0.01, mid 50000, notional 10000:
the floored size 0.2 is 20 coarser ticks and passes the minimum. -/
theorem c2_size_floor_and_minimum_witness :
    ((0 : ℚ) < 1 / 1000) ∧ ((0 : ℚ) < 1 / 100) ∧ ((0 : ℚ) < 50000)
    ∧ ((∃ k : ℤ, Hedge.floor_to_tick ((10000 : ℚ) / 50000) (max (1 / 1000) (1 / 100))
        = k * max (1 / 1000) (1 / 100))
      ∧ ((∃ e, Hedge.open_compute_size (1 / 1000) (1 / 100) 50000 10000 = Except.error e)
        ↔ Hedge.floor_to_tick ((10000 : ℚ) / 50000) (max (1 / 1000) (1 / 100))
          < 10 * max (1 / 1000) (1 / 100))
      ∧ (Hedge.floor_to_tick ((10000 : ℚ) / 50000) (max (1 / 1000) (1 / 100)) ≤ 0
          ∨ Hedge.floor_to_tick ((10000 : ℚ) / 50000) (max (1 / 1000) (1 / 100)) < 1 / 1000 * 10
          ∨ Hedge.floor_to_tick ((10000 : ℚ) / 50000) (max (1 / 1000) (1 / 100)) < 1 / 100 * 10
        ↔ Hedge.floor_to_tick ((10000 : ℚ) / 50000) (max (1 / 1000) (1 / 100))
          < 10 * max (1 / 1000) (1 / 100))
      ∧ (∀ v, Hedge.open_compute_size (1 / 1000) (1 / 100) 50000 10000 = Except.ok v
        → v = Hedge.floor_to_tick ((10000 : ℚ) / 50000) (max (1 / 1000) (1 / 100))
          ∧ 10 * max (1 / 1000) (1 / 100) ≤ v)) :=
  ⟨by norm_num, by norm_num, by norm_num,
    c2_size_floor_and_minimum (1 / 1000) (1 / 100) 50000 10000
      (by norm_num) (by norm_num) (by norm_num)⟩

namespace Hedge

/-- Translation of calculate_stop_loss_percentage (lines 382-403):
75 percent of the approximate cross-margin liquidation threshold. -/
def calculate_stop_loss_percentage (leverage : ℚ) : ℚ :=
  if leverage ≤ 0 then 0 else 100 / leverage * (3 / 4)

/-- Worst-leg selection of the HOLDING monitor (lines 1798-1814): the
leg with the lower unrealized PnL, the other leg when one is missing,
with its venue name; ties go to Aster. -/
def worst_pnl_leg : Option ℚ → Option ℚ → Option (ℚ × String)
  | some a, some l => if a ≤ l then some (a, "Aster") else some (l, "Lighter")
  | some a, none => some (a, "Aster")
  | none, some l => some (l, "Lighter")
  | none, none => none

/-- Position value used for the PnL percentage (line 1796): size·mid
when both are non-zero (Python truthiness), else the configured
notional. -/
def position_value (size_base avg_mid notional_per_position : ℚ) : ℚ :=
  if size_base ≠ 0 ∧ avg_mid ≠ 0 then size_base * avg_mid else notional_per_position

/-- Data carried into the stop-loss close branch. -/
structure StopLossFire where
  worst_pnl : ℚ
  worst_exchange : String
  pnl_pct : ℚ
deriving DecidableEq

/-- Stop-loss decision of the HOLDING monitor (lines 1784-1827): fires
exactly when stop-loss is enabled, a worst leg exists, the position
value is positive, and the absolute worst PnL percentage reaches the
leverage-derived threshold. -/
def stop_loss_signal (enable_stop_loss : Bool)
    (leverage size_base avg_mid notional_per_position : ℚ)
    (aster_pnl lighter_pnl : Option ℚ) : Option StopLossFire :=
  let slPct := calculate_stop_loss_percentage leverage
  match worst_pnl_leg aster_pnl lighter_pnl with
  | none => none
  | some wl =>
    let pv := position_value size_base avg_mid notional_per_position
    if 0 < pv then
      let pct := wl.1 / pv * 100
      if enable_stop_loss ∧ slPct ≤ |pct| then some ⟨wl.1, wl.2, pct⟩ else none
    else none

/-- The cycle-record fields appended on close. -/
structure CycleRecord where
  status : String
  pnl_at_close : Option ℚ
  pnl_pct_at_close : Option ℚ
  worst_exchange : Option String
deriving DecidableEq

/-- Cycle record appended when the stop-loss close succeeds
(lines 1833-1842). -/
def stop_loss_cycle_record (f : StopLossFire) : CycleRecord :=
  { status := "stop-loss", pnl_at_close := some f.worst_pnl,
    pnl_pct_at_close := some f.pnl_pct, worst_exchange := some f.worst_exchange }

end Hedge

/-- C3: while HOLDING with stop-loss enabled and a positive position
value size_base·avg_mid, a stop-loss close is signalled iff
|worst_pnl| / (size_base·avg_mid) · 100 ≥ (100/leverage)·0.75, where the
worst leg is the more negative PnL (the other leg when one is missing);
when it fires, the recorded cycle has status stop-loss with the worst
PnL, its percentage and the worst exchange. -/
theorem c3_stop_loss_iff_threshold (enable : Bool)
    (leverage size_base avg_mid notional : ℚ) (aster_pnl lighter_pnl : Option ℚ)
    (w : ℚ) (ex : String)
    (hen : enable = true) (hlev : 0 < leverage) (hsb : 0 < size_base)
    (ham : 0 < avg_mid)
    (hw : Hedge.worst_pnl_leg aster_pnl lighter_pnl = some (w, ex)) :
    ((Hedge.stop_loss_signal enable leverage size_base avg_mid notional
        aster_pnl lighter_pnl).isSome
      ↔ 100 / leverage * (3 / 4) ≤ |w| / (size_base * avg_mid) * 100)
    ∧ (∀ f, Hedge.stop_loss_signal enable leverage size_base avg_mid notional
          aster_pnl lighter_pnl = some f
        → Hedge.stop_loss_cycle_record f
          = { status := "stop-loss", pnl_at_close := some w,
              pnl_pct_at_close := some (w / (size_base * avg_mid) * 100),
              worst_exchange := some ex })
    ∧ (∀ a l : ℚ,
        (Hedge.worst_pnl_leg (some a) (some l)).map Prod.fst = some (min a l)) := by
  have hpv : Hedge.position_value size_base avg_mid notional = size_base * avg_mid := by
    unfold Hedge.position_value
    rw [if_pos ⟨ne_of_gt hsb, ne_of_gt ham⟩]
  have hpv_pos : 0 < size_base * avg_mid := mul_pos hsb ham
  have habs : |w / (size_base * avg_mid) * 100| = |w| / (size_base * avg_mid) * 100 := by
    rw [abs_mul, abs_div, abs_of_pos hpv_pos]
    norm_num
  have hsl : Hedge.calculate_stop_loss_percentage leverage = 100 / leverage * (3 / 4) := by
    unfold Hedge.calculate_stop_loss_percentage
    rw [if_neg (not_le.mpr hlev)]
  refine ⟨?_, ?_, ?_⟩
  · unfold Hedge.stop_loss_signal
    rw [hw, hsl]
    simp only [hpv, if_pos hpv_pos, hen, true_and]
    by_cases hth : 100 / leverage * (3 / 4) ≤ |w / (size_base * avg_mid) * 100|
    · rw [if_pos hth]
      simp only [Option.isSome_some, true_iff]
      rw [habs] at hth
      exact hth
    · rw [if_neg hth]
      simp only [Option.isSome_none, Bool.false_eq_true, false_iff, not_le]
      rw [habs] at hth
      exact lt_of_not_le hth
  · intro f hf
    unfold Hedge.stop_loss_signal at hf
    rw [hw, hsl] at hf
    simp only [hpv, if_pos hpv_pos, hen, true_and] at hf
    by_cases hth : 100 / leverage * (3 / 4) ≤ |w / (size_base * avg_mid) * 100|
    · rw [if_pos hth] at hf
      cases hf
      rfl
    · rw [if_neg hth] at hf
      cases hf
  · intro a l
    rcases le_total a l with h | h
    · simp [Hedge.worst_pnl_leg, h, min_eq_left h]
    · rcases eq_or_lt_of_le h with h2 | h2
      · subst h2
        simp [Hedge.worst_pnl_leg]
      · simp [Hedge.worst_pnl_leg, not_le.mpr h2, min_eq_right h]

/-- Witness for C3: leverage 3 (threshold 25 percent), size 1 at mid
100, worst leg Aster at −26, which fires the stop-loss. -/
theorem c3_stop_loss_iff_threshold_witness :
    true = true ∧ (0 : ℚ) < 3 ∧ (0 : ℚ) < 1 ∧ (0 : ℚ) < 100
    ∧ Hedge.worst_pnl_leg (some (-26)) (some 1) = some (-26, "Aster")
    ∧ (((Hedge.stop_loss_signal true 3 1 100 100 (some (-26)) (some 1)).isSome
        ↔ 100 / 3 * (3 / 4) ≤ |(-26 : ℚ)| / (1 * 100) * 100)
      ∧ (∀ f, Hedge.stop_loss_signal true 3 1 100 100 (some (-26)) (some 1) = some f
          → Hedge.stop_loss_cycle_record f
            = { status := "stop-loss", pnl_at_close := some (-26),
                pnl_pct_at_close := some ((-26) / (1 * 100) * 100),
                worst_exchange := some "Aster" })
      ∧ (∀ a l : ℚ,
          (Hedge.worst_pnl_leg (some a) (some l)).map Prod.fst = some (min a l))) :=
  ⟨rfl, by norm_num, by norm_num, by norm_num,
    by norm_num [Hedge.worst_pnl_leg],
    c3_stop_loss_iff_threshold true 3 1 100 100 (some (-26)) (some 1) (-26) "Aster"
      rfl (by norm_num) (by norm_num) (by norm_num)
      (by norm_num [Hedge.worst_pnl_leg])⟩

namespace Hedge

/-- Outcome of the startup recovery classifier. -/
inductive RecoveryDecision
  | resume (new_size_base : ℚ)
  | clear
deriving DecidableEq

/-- Presence test of verify_and_recover_position (lines 1458-1459):
a live position exists when its absolute size exceeds 0.0001. -/
def has_live_position (size : ℚ) : Bool := 1 / 10000 < |size|

/-- Classification of verify_and_recover_position (lines 1457-1534):
resume only when both venues hold opposite-signed positions, adopting
the observed average size when it deviates from the stored one by more
than 0.001 units and more than 0.1 percent; clear otherwise. -/
def recovery_classify (aster_size lighter_size saved_size_base : ℚ) :
    RecoveryDecision :=
  if has_live_position aster_size ∧ has_live_position lighter_size then
    if (0 < aster_size ∧ lighter_size < 0) ∨ (aster_size < 0 ∧ 0 < lighter_size) then
      let actual := (|aster_size| + |lighter_size|) / 2
      let size_diff := |actual - saved_size_base|
      let size_diff_pct :=
        if 0 < saved_size_base then size_diff / saved_size_base * 100 else 0
      if 1 / 1000 < size_diff ∧ 1 / 10 < size_diff_pct then
        RecoveryDecision.resume actual
      else RecoveryDecision.resume saved_size_base
    else RecoveryDecision.clear
  else RecoveryDecision.clear

end Hedge

/-- C4: the recovery classifier resumes exactly when both observed live
sizes are present (absolute size above 0.0001) and opposite-signed, and
clears in the three other rows of the truth table; in the resume case
the stored size is overwritten with the observed average
(|size_A|+|size_L|)/2 iff that average deviates from the stored size by
more than 0.001 units and more than 0.1 percent of the stored size. -/
theorem c4_recovery_truth_table (aster_size lighter_size saved_size_base : ℚ)
    (hsaved : 0 < saved_size_base) :
    ((∃ ns, Hedge.recovery_classify aster_size lighter_size saved_size_base
        = Hedge.RecoveryDecision.resume ns)
      ↔ Hedge.has_live_position aster_size ∧ Hedge.has_live_position lighter_size
        ∧ ((0 < aster_size ∧ lighter_size < 0) ∨ (aster_size < 0 ∧ 0 < lighter_size)))
    ∧ (∀ ns, Hedge.recovery_classify aster_size lighter_size saved_size_base
        = Hedge.RecoveryDecision.resume ns
      → ns = if 1 / 1000 < |(|aster_size| + |lighter_size|) / 2 - saved_size_base|
            ∧ saved_size_base / 1000 < |(|aster_size| + |lighter_size|) / 2 - saved_size_base|
          then (|aster_size| + |lighter_size|) / 2 else saved_size_base) := by
  have hpct : (1 / 10 : ℚ)
        < |(|aster_size| + |lighter_size|) / 2 - saved_size_base| / saved_size_base * 100
      ↔ saved_size_base / 1000 < |(|aster_size| + |lighter_size|) / 2 - saved_size_base| := by
    rw [div_mul_eq_mul_div, lt_div_iff hsaved]
    constructor <;> intro h <;> linarith
  unfold Hedge.recovery_classify
  by_cases h1 : Hedge.has_live_position aster_size ∧ Hedge.has_live_position lighter_size
  · rw [if_pos h1]
    by_cases h2 : (0 < aster_size ∧ lighter_size < 0) ∨ (aster_size < 0 ∧ 0 < lighter_size)
    · rw [if_pos h2]
      simp only [if_pos hsaved]
      constructor
      · constructor
        · intro _; exact ⟨h1.1, h1.2, h2⟩
        · intro _
          by_cases h3 : (1 / 1000 : ℚ) < |(|aster_size| + |lighter_size|) / 2 - saved_size_base|
              ∧ (1 / 10 : ℚ) < |(|aster_size| + |lighter_size|) / 2 - saved_size_base|
                / saved_size_base * 100
          · rw [if_pos h3]; exact ⟨_, rfl⟩
          · rw [if_neg h3]; exact ⟨_, rfl⟩
      · intro ns hns
        by_cases h3 : (1 / 1000 : ℚ) < |(|aster_size| + |lighter_size|) / 2 - saved_size_base|
            ∧ (1 / 10 : ℚ) < |(|aster_size| + |lighter_size|) / 2 - saved_size_base|
              / saved_size_base * 100
        · rw [if_pos h3] at hns
          cases hns
          rw [if_pos ⟨h3.1, hpct.mp h3.2⟩]
        · rw [if_neg h3] at hns
          cases hns
          rw [if_neg]
          intro hcon
          exact h3 ⟨hcon.1, hpct.mpr hcon.2⟩
    · rw [if_neg h2]
      constructor
      · constructor
        · rintro ⟨ns, hns⟩; cases hns
        · rintro ⟨_, _, hop⟩; exact absurd hop h2
      · intro ns hns; cases hns
  · rw [if_neg h1]
    constructor
    · constructor
      · rintro ⟨ns, hns⟩; cases hns
      · rintro ⟨ha, hl, _⟩; exact absurd ⟨ha, hl⟩ h1
    · intro ns hns; cases hns

/-- Witness for C4 with observed sizes +0.01 and −0.01 against a stored
size of 0.01: a valid hedge that keeps the stored size. -/
theorem c4_recovery_truth_table_witness :
    ((0 : ℚ) < 1 / 100)
    ∧ (((∃ ns, Hedge.recovery_classify (1 / 100) (-1 / 100) (1 / 100)
          = Hedge.RecoveryDecision.resume ns)
        ↔ Hedge.has_live_position (1 / 100) ∧ Hedge.has_live_position (-1 / 100)
          ∧ ((0 < (1 / 100 : ℚ) ∧ (-1 / 100 : ℚ) < 0)
            ∨ ((1 / 100 : ℚ) < 0 ∧ 0 < (-1 / 100 : ℚ))))
      ∧ (∀ ns, Hedge.recovery_classify (1 / 100) (-1 / 100) (1 / 100)
          = Hedge.RecoveryDecision.resume ns
        → ns = if 1 / 1000 < |(|(1 : ℚ) / 100| + |(-1 : ℚ) / 100|) / 2 - 1 / 100|
              ∧ (1 / 100 : ℚ) / 1000
                < |(|(1 : ℚ) / 100| + |(-1 : ℚ) / 100|) / 2 - 1 / 100|
            then (|(1 : ℚ) / 100| + |(-1 : ℚ) / 100|) / 2 else 1 / 100)) :=
  ⟨by norm_num, c4_recovery_truth_table (1 / 100) (-1 / 100) (1 / 100) (by norm_num)⟩

namespace Hedge

/-- The BotState string constants of the source. -/
inductive BState
  | idle | analyzing | opening | holding | closing | waiting | error | shutdown
deriving DecidableEq

/-- A persisted on-disk snapshot: the state field and whether (and for
which symbol and size) current_position is set. -/
structure Snapshot where
  bstate : BState
  pos : Option (String × ℚ)
deriving DecidableEq

/-- The default in-memory state of StateManager (lines 1146-1152):
state IDLE, current_position None. -/
def initialSnapshot : Snapshot := ⟨BState.idle, none⟩

/-- One step per call site of StateManager.save in the engine: each
constructor is a save (direct or via set_state) together with the state
and current_position mutations performed since the previous save.  Line
references are into lighter_aster_hedge.py; main_loop, main and
verify_and_recover_position are covered. -/
inductive SaveStep : Snapshot → Snapshot → Prop
  /-- set_config at startup (line 1948): no state or position change. -/
  | setConfig (s : Snapshot) : SaveStep s s
  /-- recovery resume with size mismatch (lines 1482-1497): metadata
  size_base overwritten, save with state field untouched. -/
  | recoveryResumeUpdate (st : BState) (sym : String) (q q2 : ℚ) :
      SaveStep ⟨st, some (sym, q)⟩ ⟨st, some (sym, q2)⟩
  /-- recovery clear (lines 1530-1532): current_position set to None and
  saved, state field untouched. -/
  | recoveryClear (st : BState) (p : String × ℚ) :
      SaveStep ⟨st, some p⟩ ⟨st, none⟩
  /-- after a valid recovery, set_state(HOLDING) (lines 1615-1619). -/
  | recoveryHold (st : BState) (p : String × ℚ) (h : st ≠ BState.holding) :
      SaveStep ⟨st, some p⟩ ⟨BState.holding, some p⟩
  /-- after clearing an invalid position, set_state(IDLE)
  (lines 1620-1624). -/
  | recoveryIdle : SaveStep ⟨BState.holding, none⟩ ⟨BState.idle, none⟩
  /-- set_state(ANALYZING) from IDLE or WAITING (line 1636). -/
  | beginAnalyzing (st : BState) (p : Option (String × ℚ))
      (h : st = BState.idle ∨ st = BState.waiting) :
      SaveStep ⟨st, p⟩ ⟨BState.analyzing, p⟩
  /-- no available symbol or no candidate: set_state(WAITING)
  (lines 1675, 1686). -/
  | noCandidateWait (p : Option (String × ℚ)) :
      SaveStep ⟨BState.analyzing, p⟩ ⟨BState.waiting, p⟩
  /-- set_state(OPENING) before submitting legs (line 1694). -/
  | beginOpening (p : Option (String × ℚ)) :
      SaveStep ⟨BState.analyzing, p⟩ ⟨BState.opening, p⟩
  /-- open success: current_position assigned, then set_state(HOLDING)
  (lines 1709-1719). -/
  | openSuccess (p : Option (String × ℚ)) (q : String × ℚ) :
      SaveStep ⟨BState.opening, p⟩ ⟨BState.holding, some q⟩
  /-- open failure: set_state(ERROR) and save with last_error
  (lines 1722-1727); current_position was never assigned. -/
  | openFailure (p : Option (String × ℚ)) :
      SaveStep ⟨BState.opening, p⟩ ⟨BState.error, p⟩
  /-- HOLDING with no position: set_state(IDLE) (lines 1734-1736). -/
  | holdingNoPosition : SaveStep ⟨BState.holding, none⟩ ⟨BState.idle, none⟩
  /-- hold timer expired or stop-loss: set_state(CLOSING) while
  current_position is still set (lines 1744, 1827). -/
  | beginClosing (p : String × ℚ) :
      SaveStep ⟨BState.holding, some p⟩ ⟨BState.closing, some p⟩
  /-- timer close success: cycle recorded, position cleared,
  set_state(WAITING) (lines 1755-1765). -/
  | closeSuccess (p : String × ℚ) :
      SaveStep ⟨BState.closing, some p⟩ ⟨BState.waiting, none⟩
  /-- cooldown elapsed: set_state(IDLE) (line 1769). -/
  | waitCooldownDone (p : Option (String × ℚ)) :
      SaveStep ⟨BState.waiting, p⟩ ⟨BState.idle, p⟩
  /-- close failure: set_state(ERROR) and save, position still set
  (lines 1771-1776). -/
  | closeFailure (p : String × ℚ) :
      SaveStep ⟨BState.closing, some p⟩ ⟨BState.error, some p⟩
  /-- stop-loss close success: cycle recorded, position cleared, save
  with state still CLOSING (lines 1833-1846). -/
  | stopLossRecorded (p : String × ℚ) :
      SaveStep ⟨BState.closing, some p⟩ ⟨BState.closing, none⟩
  /-- after the stop-loss cooldown, set_state(IDLE) (line 1850). -/
  | stopLossIdle : SaveStep ⟨BState.closing, none⟩ ⟨BState.idle, none⟩
  /-- close failure in the stop-loss branch: set_state(ERROR)
  (lines 1853-1858), position still set. -/
  | stopLossCloseFailure (p : String × ℚ) :
      SaveStep ⟨BState.closing, some p⟩ ⟨BState.error, some p⟩
  /-- funding-table refresh during HOLDING (lines 1910-1915): position
  metadata updated, state untouched. -/
  | tableRefresh (sym : String) (q q2 : ℚ) :
      SaveStep ⟨BState.holding, some (sym, q)⟩ ⟨BState.holding, some (sym, q2)⟩
  /-- ERROR backoff elapsed: set_state(IDLE) (lines 1921-1924),
  position untouched. -/
  | errorRecovered (p : Option (String × ℚ)) :
      SaveStep ⟨BState.error, p⟩ ⟨BState.idle, p⟩
  /-- unknown state: set_state(IDLE) (lines 1926-1928). -/
  | unknownReset (s : Snapshot) : SaveStep s ⟨BState.idle, s.pos⟩
  /-- KeyboardInterrupt handler: set_state(SHUTDOWN) (lines 1958-1961). -/
  | shutdownSignal (s : Snapshot) : SaveStep s ⟨BState.shutdown, s.pos⟩
  /-- fatal error handler in main: set_state(ERROR) (lines 1962-1967). -/
  | fatalError (s : Snapshot) : SaveStep s ⟨BState.error, s.pos⟩

/-- A persisted state produced by some sequence of saves from the fresh
default state. -/
def ReachableSnapshot (s : Snapshot) : Prop :=
  Relation.ReflTransGen SaveStep initialSnapshot s

end Hedge

/-- C5 counterexample: the persisted snapshot written by
set_state(CLOSING) at the start of a normal close still carries the
non-null position, so a reachable on-disk state violates the claimed
equivalence between state == HOLDING and current_position being
non-null. -/
theorem c5_counterexample :
    ¬ ∀ s, Hedge.ReachableSnapshot s
      → (s.bstate = Hedge.BState.holding ↔ s.pos ≠ none) := by
  intro hall
  have hreach : Hedge.ReachableSnapshot
      ⟨Hedge.BState.closing, some ("BTCUSDT", 1 / 500)⟩ := by
    refine Relation.ReflTransGen.trans ?_
      (Relation.ReflTransGen.single (Hedge.SaveStep.beginClosing ("BTCUSDT", 1 / 500)))
    refine Relation.ReflTransGen.trans ?_
      (Relation.ReflTransGen.single (Hedge.SaveStep.openSuccess none ("BTCUSDT", 1 / 500)))
    refine Relation.ReflTransGen.trans ?_
      (Relation.ReflTransGen.single (Hedge.SaveStep.beginOpening none))
    exact Relation.ReflTransGen.single
      (Hedge.SaveStep.beginAnalyzing Hedge.BState.idle none (Or.inl rfl))
  have h := (hall _ hreach).mpr (by simp)
  exact absurd h (by decide)

/-- C5 amended: the equivalence does not hold of every persisted
snapshot, but every save that changes the state field to HOLDING
persists a non-null current_position. -/
theorem c5_entering_holding_has_position (s t : Hedge.Snapshot)
    (hstep : Hedge.SaveStep s t) (hs : s.bstate ≠ Hedge.BState.holding)
    (ht : t.bstate = Hedge.BState.holding) : t.pos ≠ none := by
  cases hstep <;> simp_all

/-- Witness for the amended C5 at the open-success step. -/
theorem c5_entering_holding_has_position_witness :
    Hedge.SaveStep ⟨Hedge.BState.opening, none⟩
        ⟨Hedge.BState.holding, some ("BTCUSDT", 1 / 500)⟩
    ∧ (Hedge.Snapshot.mk Hedge.BState.opening none).bstate ≠ Hedge.BState.holding
    ∧ (Hedge.Snapshot.mk Hedge.BState.holding (some ("BTCUSDT", 1 / 500))).bstate
      = Hedge.BState.holding
    ∧ (Hedge.Snapshot.mk Hedge.BState.holding (some ("BTCUSDT", 1 / 500))).pos ≠ none :=
  ⟨Hedge.SaveStep.openSuccess none ("BTCUSDT", 1 / 500), by decide, rfl,
    c5_entering_holding_has_position _ _
      (Hedge.SaveStep.openSuccess none ("BTCUSDT", 1 / 500)) (by decide) rfl⟩

namespace Hedge

/-- Outcome of one attempt of StateManager.save: the write-and-rename
body succeeds, raises OSError with a given errno, or raises some other
exception. -/
inductive SaveAttempt
  | ok
  | osError (errno : ℤ)
  | otherError
deriving DecidableEq

/-- Filesystem-visible operations of StateManager.save.  fsyncTmp is in
the alphabet so the claimed fsync step is expressible; the code never
emits it. -/
inductive FsEvent
  | writeTmp
  | fsyncTmp
  | renameOver
  | sleepTenths (tenths : ℕ)
deriving DecidableEq

/-- Events of one attempt (lines 1242-1245): the temp file is written
and, on success, renamed over the target.  A failing attempt stops at
the write-and-rename body. -/
def save_attempt_events : SaveAttempt → List FsEvent
  | SaveAttempt.ok => [FsEvent.writeTmp, FsEvent.renameOver]
  | _ => [FsEvent.writeTmp]

/-- The retry loop of StateManager.save (lines 1239-1259): max_retries
is 3 total attempts; only OSError with errno 16 before the final
attempt is retried, after sleeping 0.1·(attempt+1) seconds (recorded in
tenths of a second); any other
exception aborts.  Returns the emitted events and whether the state
reached the disk. -/
def state_save_go (outcomes : ℕ → SaveAttempt) (max_retries : ℕ) :
    ℕ → ℕ → List FsEvent × Bool
  | 0, _ => ([], false)
  | fuel + 1, attempt =>
    match outcomes attempt with
    | SaveAttempt.ok => (save_attempt_events SaveAttempt.ok, true)
    | SaveAttempt.osError errno =>
      if errno = 16 ∧ attempt < max_retries - 1 then
        let rest := state_save_go outcomes max_retries fuel (attempt + 1)
        (save_attempt_events (SaveAttempt.osError errno)
          ++ [FsEvent.sleepTenths (attempt + 1)] ++ rest.1, rest.2)
      else (save_attempt_events (SaveAttempt.osError errno), false)
    | SaveAttempt.otherError => (save_attempt_events SaveAttempt.otherError, false)

/-- Translation of StateManager.save (lines 1234-1259) as a trace
function over the per-attempt outcomes. -/
def state_save (outcomes : ℕ → SaveAttempt) : List FsEvent × Bool :=
  state_save_go outcomes 3 3 0

theorem state_save_go_no_fsync (outcomes : ℕ → SaveAttempt) (mr fuel attempt : ℕ) :
    FsEvent.fsyncTmp ∉ (state_save_go outcomes mr fuel attempt).1 := by
  induction fuel generalizing attempt with
  | zero => simp [state_save_go]
  | succ n ih =>
    unfold state_save_go
    cases houtcome : outcomes attempt with
    | ok => simp [save_attempt_events]
    | osError errno =>
      by_cases hcond : errno = 16 ∧ attempt < mr - 1
      · simp only [if_pos hcond, List.mem_append, save_attempt_events]
        intro hmem
        rcases hmem with (hmem | hmem) | hmem
        · simp at hmem
        · simp at hmem
        · exact ih (attempt + 1) hmem
      · simp [if_neg hcond, save_attempt_events]
    | otherError => simp [save_attempt_events]

end Hedge

/-- C6 counterexample: a successful save writes the temp file and
renames it with no fsync in between (and in no other save either), so
the claim that every save fsyncs before the rename is false. -/
theorem c6_counterexample :
    (Hedge.state_save fun _ => Hedge.SaveAttempt.ok).1
      = [Hedge.FsEvent.writeTmp, Hedge.FsEvent.renameOver]
    ∧ Hedge.FsEvent.fsyncTmp ∉ (Hedge.state_save fun _ => Hedge.SaveAttempt.ok).1 := by
  constructor
  · rfl
  · decide

/-- C6 amended: every save writes the full state to the temp file and
renames it over the target without an fsync; retries happen only for
OSError with errno 16, with at most 3 total attempts (2 retries, not 3)
and linearly growing sleeps of 0.1 s then 0.2 s (not exponential);
any other error aborts the save without retry. -/
theorem c6_save_trace_characterization :
    (∀ outcomes, Hedge.FsEvent.fsyncTmp ∉ (Hedge.state_save outcomes).1)
    ∧ (Hedge.state_save fun _ => Hedge.SaveAttempt.ok)
      = ([Hedge.FsEvent.writeTmp, Hedge.FsEvent.renameOver], true)
    ∧ (Hedge.state_save fun k =>
        if k < 2 then Hedge.SaveAttempt.osError 16 else Hedge.SaveAttempt.ok)
      = ([Hedge.FsEvent.writeTmp, Hedge.FsEvent.sleepTenths 1,
          Hedge.FsEvent.writeTmp, Hedge.FsEvent.sleepTenths 2,
          Hedge.FsEvent.writeTmp, Hedge.FsEvent.renameOver], true)
    ∧ (Hedge.state_save fun _ => Hedge.SaveAttempt.osError 16)
      = ([Hedge.FsEvent.writeTmp, Hedge.FsEvent.sleepTenths 1,
          Hedge.FsEvent.writeTmp, Hedge.FsEvent.sleepTenths 2,
          Hedge.FsEvent.writeTmp], false)
    ∧ (Hedge.state_save fun _ => Hedge.SaveAttempt.osError 28)
      = ([Hedge.FsEvent.writeTmp], false)
    ∧ (Hedge.state_save fun _ => Hedge.SaveAttempt.otherError)
      = ([Hedge.FsEvent.writeTmp], false) := by
  refine ⟨fun outcomes => Hedge.state_save_go_no_fsync outcomes 3 3 0, ?_, ?_, ?_, ?_, ?_⟩
  · rfl
  · decide
  · decide
  · decide
  · rfl

namespace Hedge

/-- Outcome of one call of the function wrapped by retry_with_backoff. -/
inductive CallOutcome
  | success (v : ℕ)
  | failRateLimit (msg : String)
  | failOther (msg : String)

/-- How retry_with_backoff terminates abnormally: the dedicated
RateLimitError after exhausting retries, or the original exception
re-raised immediately when it is not a rate-limit error. -/
inductive RetryError
  | rateLimitExceeded (msg : String)
  | propagated (msg : String)
deriving DecidableEq

/-- The loop of retry_with_backoff (lines 85-137): attempts run while
fuel lasts (fuel is max_retries+1 at the top call, so the loop count
matches `for attempt in range(max_retries + 1)`); a non-rate-limit
exception re-raises at once; a rate-limit failure at
attempt ≥ max_retries raises RateLimitError; otherwise the loop sleeps
min(initial·factor^attempt, max_delay), jittered by the drawn fraction
of ±25 percent, and retries.  Returns the result and the slept
delays. -/
def retry_go (outcomes : ℕ → CallOutcome) (max_retries : ℕ)
    (initial_delay backoff_factor max_delay : ℚ) (jitter : Bool)
    (draw : ℕ → ℚ) : ℕ → ℕ → Except RetryError ℕ × List ℚ
  | 0, _ => (Except.error (RetryError.rateLimitExceeded "fuel exhausted"), [])
  | fuel + 1, attempt =>
    match outcomes attempt with
    | CallOutcome.success v => (Except.ok v, [])
    | CallOutcome.failOther msg => (Except.error (RetryError.propagated msg), [])
    | CallOutcome.failRateLimit msg =>
      if max_retries ≤ attempt then
        (Except.error (RetryError.rateLimitExceeded msg), [])
      else
        let d0 := min (initial_delay * backoff_factor ^ attempt) max_delay
        let d := if jitter then d0 + d0 * draw attempt else d0
        let rest := retry_go outcomes max_retries initial_delay backoff_factor
          max_delay jitter draw fuel (attempt + 1)
        (rest.1, d :: rest.2)

/-- Translation of retry_with_backoff (lines 85-137) as a function of
the per-attempt outcomes and the jitter draws (each draw is the
uniform(−0.25, 0.25) fraction scaled by the delay). -/
def retry_with_backoff (outcomes : ℕ → CallOutcome) (max_retries : ℕ)
    (initial_delay backoff_factor max_delay : ℚ) (jitter : Bool)
    (draw : ℕ → ℚ) : Except RetryError ℕ × List ℚ :=
  retry_go outcomes max_retries initial_delay backoff_factor max_delay jitter draw
    (max_retries + 1) 0

end Hedge

/-- C7: with the defaults (3 retries, initial 1 s, factor 2, max 30 s,
jitter on) and every jitter draw within ±25 percent: a non-rate-limit
failure propagates at once with no sleep; four consecutive rate-limit
failures raise the dedicated RateLimitError after exactly three sleeps
whose pre-jitter values are min(initial·factor^k, max) = 2^k for
k = 0, 1, 2 and whose jittered values stay within ±25 percent of that
([0.75, 1.25], [1.5, 2.5], [3, 5]); and a rate-limit failure followed by
a non-rate-limit failure still propagates the latter immediately. -/
theorem c7_backoff_schedule (draw : ℕ → ℚ)
    (hdraw : ∀ k, |draw k| ≤ 1 / 4) :
    (∀ outcomes msg, outcomes 0 = Hedge.CallOutcome.failOther msg
      → Hedge.retry_with_backoff outcomes 3 1 2 30 true draw
        = (Except.error (Hedge.RetryError.propagated msg), []))
    ∧ (Hedge.retry_with_backoff (fun _ => Hedge.CallOutcome.failRateLimit "429")
          3 1 2 30 true draw
        = (Except.error (Hedge.RetryError.rateLimitExceeded "429"),
          [min (1 * 2 ^ 0) 30 + min (1 * 2 ^ 0) 30 * draw 0,
           min (1 * 2 ^ 1) 30 + min (1 * 2 ^ 1) 30 * draw 1,
           min (1 * 2 ^ 2) 30 + min (1 * 2 ^ 2) 30 * draw 2]))
    ∧ ((3 : ℚ) / 4 ≤ min (1 * 2 ^ 0) 30 + min ((1 : ℚ) * 2 ^ 0) 30 * draw 0
      ∧ min ((1 : ℚ) * 2 ^ 0) 30 + min ((1 : ℚ) * 2 ^ 0) 30 * draw 0 ≤ 5 / 4
      ∧ (3 : ℚ) / 2 ≤ min (1 * 2 ^ 1) 30 + min ((1 : ℚ) * 2 ^ 1) 30 * draw 1
      ∧ min ((1 : ℚ) * 2 ^ 1) 30 + min ((1 : ℚ) * 2 ^ 1) 30 * draw 1 ≤ 5 / 2
      ∧ (3 : ℚ) ≤ min (1 * 2 ^ 2) 30 + min ((1 : ℚ) * 2 ^ 2) 30 * draw 2
      ∧ min ((1 : ℚ) * 2 ^ 2) 30 + min ((1 : ℚ) * 2 ^ 2) 30 * draw 2 ≤ 5)
    ∧ (Hedge.retry_with_backoff
          (fun k => if k = 0 then Hedge.CallOutcome.failRateLimit "429"
            else Hedge.CallOutcome.failOther "auth denied")
          3 1 2 30 true draw
        = (Except.error (Hedge.RetryError.propagated "auth denied"),
          [min (1 * 2 ^ 0) 30 + min (1 * 2 ^ 0) 30 * draw 0])) := by
  have h0 := hdraw 0
  have h1 := hdraw 1
  have h2 := hdraw 2
  rw [abs_le] at h0 h1 h2
  refine ⟨?_, ?_, ?_, ?_⟩
  · intro outcomes msg hmsg
    unfold Hedge.retry_with_backoff Hedge.retry_go
    rw [hmsg]
  · unfold Hedge.retry_with_backoff
    simp only [Hedge.retry_go]
    norm_num
  · have e0 : min ((1 : ℚ) * 2 ^ 0) 30 = 1 := by norm_num
    have e1 : min ((1 : ℚ) * 2 ^ 1) 30 = 2 := by norm_num
    have e2 : min ((1 : ℚ) * 2 ^ 2) 30 = 4 := by norm_num
    rw [e0, e1, e2]
    refine ⟨by linarith [h0.1], by linarith [h0.2], by linarith [h1.1],
      by linarith [h1.2], by linarith [h2.1], by linarith [h2.2]⟩
  · unfold Hedge.retry_with_backoff
    simp only [Hedge.retry_go]
    norm_num

/-- Witness for C7 with the zero jitter draw. -/
theorem c7_backoff_schedule_witness :
    (∀ k : ℕ, |(fun _ : ℕ => (0 : ℚ)) k| ≤ 1 / 4)
    ∧ ((∀ outcomes msg, outcomes 0 = Hedge.CallOutcome.failOther msg
        → Hedge.retry_with_backoff outcomes 3 1 2 30 true (fun _ => 0)
          = (Except.error (Hedge.RetryError.propagated msg), []))
      ∧ (Hedge.retry_with_backoff (fun _ => Hedge.CallOutcome.failRateLimit "429")
            3 1 2 30 true (fun _ => 0)
          = (Except.error (Hedge.RetryError.rateLimitExceeded "429"),
            [min (1 * 2 ^ 0) 30 + min (1 * 2 ^ 0) 30 * (0 : ℚ),
             min (1 * 2 ^ 1) 30 + min (1 * 2 ^ 1) 30 * (0 : ℚ),
             min (1 * 2 ^ 2) 30 + min (1 * 2 ^ 2) 30 * (0 : ℚ)]))
      ∧ ((3 : ℚ) / 4 ≤ min (1 * 2 ^ 0) 30 + min ((1 : ℚ) * 2 ^ 0) 30 * (0 : ℚ)
        ∧ min ((1 : ℚ) * 2 ^ 0) 30 + min ((1 : ℚ) * 2 ^ 0) 30 * (0 : ℚ) ≤ 5 / 4
        ∧ (3 : ℚ) / 2 ≤ min (1 * 2 ^ 1) 30 + min ((1 : ℚ) * 2 ^ 1) 30 * (0 : ℚ)
        ∧ min ((1 : ℚ) * 2 ^ 1) 30 + min ((1 : ℚ) * 2 ^ 1) 30 * (0 : ℚ) ≤ 5 / 2
        ∧ (3 : ℚ) ≤ min (1 * 2 ^ 2) 30 + min ((1 : ℚ) * 2 ^ 2) 30 * (0 : ℚ)
        ∧ min ((1 : ℚ) * 2 ^ 2) 30 + min ((1 : ℚ) * 2 ^ 2) 30 * (0 : ℚ) ≤ 5)
      ∧ (Hedge.retry_with_backoff
            (fun k => if k = 0 then Hedge.CallOutcome.failRateLimit "429"
              else Hedge.CallOutcome.failOther "auth denied")
            3 1 2 30 true (fun _ => 0)
          = (Except.error (Hedge.RetryError.propagated "auth denied"),
            [min (1 * 2 ^ 0) 30 + min (1 * 2 ^ 0) 30 * (0 : ℚ)]))) :=
  ⟨fun _ => by norm_num, c7_backoff_schedule (fun _ => 0) (fun _ => by norm_num)⟩

namespace Hedge

/-- Whether pat occurs at the start of s. -/
def charsStartWith : List Char → List Char → Bool
  | [], _ => true
  | _ :: _, [] => false
  | p :: ps, c :: cs => p == c && charsStartWith ps cs

/-- Whether pat occurs contiguously anywhere in s. -/
def charsContain (pat : List Char) : List Char → Bool
  | [] => charsStartWith pat []
  | c :: cs => charsStartWith pat (c :: cs) || charsContain pat cs

/-- Substring containment on strings, as Python `in`. -/
def strContains (pat s : String) : Bool :=
  charsContain pat.toList s.toList

/-- ASCII lowercasing of one character, as Python str.lower acts on the
ASCII range (the marker substrings are all ASCII). -/
def lowerChar (c : Char) : Char :=
  if c.isUpper then Char.ofNat (c.toNat + 32) else c

/-- ASCII lowercasing of a string. -/
def toLowerStr (s : String) : String :=
  String.mk (s.data.map lowerChar)

/-- Translation of is_rate_limit_error (lines 69-82): lowercase the
textual representation of the exception and look for any of the five
marker substrings, including the venue error code 23000. -/
def is_rate_limit_error (err : String) : Bool :=
  let error_str := toLowerStr err
  strContains "429" error_str
    || strContains "too many requests" error_str
    || strContains "23000" error_str
    || strContains "rate limit" error_str
    || strContains "ratelimit" error_str

end Hedge

/-- C8 counterexample: the exception text "lighter api error code 23000"
contains none of the four substrings named by the claim, yet the
classifier returns true, because the code also matches "23000". -/
theorem c8_counterexample :
    Hedge.is_rate_limit_error "lighter api error code 23000" = true
    ∧ Hedge.strContains "429" (Hedge.toLowerStr "lighter api error code 23000") = false
    ∧ Hedge.strContains "too many requests" (Hedge.toLowerStr "lighter api error code 23000") = false
    ∧ Hedge.strContains "rate limit" (Hedge.toLowerStr "lighter api error code 23000") = false
    ∧ Hedge.strContains "ratelimit" (Hedge.toLowerStr "lighter api error code 23000") = false := by
  refine ⟨?_, ?_, ?_, ?_, ?_⟩ <;> decide

/-- C8 amended: the classifier returns true iff the lowercased exception
text contains one of the five substrings "429", "too many requests",
"23000", "rate limit", "ratelimit" — the claim's list of four is missing
"23000". -/
theorem c8_rate_limit_classifier (err : String) :
    Hedge.is_rate_limit_error err = true
      ↔ Hedge.strContains "429" (Hedge.toLowerStr err) = true
        ∨ Hedge.strContains "too many requests" (Hedge.toLowerStr err) = true
        ∨ Hedge.strContains "23000" (Hedge.toLowerStr err) = true
        ∨ Hedge.strContains "rate limit" (Hedge.toLowerStr err) = true
        ∨ Hedge.strContains "ratelimit" (Hedge.toLowerStr err) = true := by
  unfold Hedge.is_rate_limit_error
  simp [Bool.or_eq_true, or_assoc]
